import Mathlib

/-!
# Verification of the embedding HTTP service (`src/app.py`)

A shallow embedding of the Flask embedding service in `src/app.py`.

* JSON request bodies are modelled by the inductive `JVal`; the result of
  `request.get_json()` is a `JVal`, with `JVal.null` standing for a body
  that parsed to `None`.
* Python's dynamic semantics used by the handlers are modelled explicitly:
  truthiness (`pyTruthy`), the `in` operator (`pyContains`, raising
  `TypeError` on non-container values), subscripting (`pyGet`, raising
  `KeyError` / `TypeError`), and the fact that `.strip()` exists only on
  strings (`AttributeError` otherwise).  Exceptions are `Except PyErr`;
  each handler's `try/except Exception` boundary converts an exception
  into a 500 `{error: message}` response.
* The external model (SentenceTransformer) is out of scope in the spec and
  modelled by an abstract `ModelHandle` with an `encodeOne` function;
  `model.encode` on a single string is `encodeOne`, on a list it maps
  `encodeOne` over the list (spec section 4.1: output order matches input
  order; batch-of-one and single are identical).  Vector components are
  rationals, idealising floats.
* Each handler also returns the trace of `model.encode` invocations it
  performed (`HandlerOut.calls`), to make "the model is never invoked"
  and "texts are passed unchanged" observable.
* Wall-clock timing (`processing_time`) is nondeterministic and omitted
  from the embedded response bodies.
-/

/-- A JSON value, the result of `request.get_json()`. -/
inductive JVal where
  | str (s : String)
  | num (q : ℚ)
  | bool (b : Bool)
  | null
  | arr (elems : List JVal)
  | obj (fields : List (String × JVal))

/-- A Python exception raised inside a handler's `try` block. -/
inductive PyErr where
  | typeError (msg : String)
  | keyError (msg : String)
  | attributeError (msg : String)
  deriving DecidableEq

/-- The message carried by an exception (`str(e)` in the handlers). -/
def PyErr.msg : PyErr → String
  | .typeError m => m
  | .keyError m => m
  | .attributeError m => m

/-- Python type name of a JSON value, for exception messages. -/
def pyTypeName : JVal → String
  | .str _ => "str"
  | .num _ => "float"
  | .bool _ => "bool"
  | .null => "NoneType"
  | .arr _ => "list"
  | .obj _ => "dict"

/-- Message of the `AttributeError` raised by `v.strip()` on a non-string. -/
def stripAttrMsg (v : JVal) : String :=
  "'" ++ pyTypeName v ++ "' object has no attribute 'strip'"

/-- Python truthiness of a JSON value (`if not data`). -/
def pyTruthy : JVal → Bool
  | .str s => s ≠ ""
  | .num q => q ≠ 0
  | .bool b => b
  | .null => false
  | .arr xs => !xs.isEmpty
  | .obj fs => !fs.isEmpty

/-- Occurrence of a (nonempty) key inside a string, for Python's
`key in someString` substring test. -/
def strHasSub (key s : String) : Bool :=
  (s.splitOn key).length ≠ 1

/-- Python's `key in data`.  Dict: key membership.  List: element
membership.  String: substring.  Other values: `TypeError`. -/
def pyContains (key : String) : JVal → Except PyErr Bool
  | .obj fs => .ok (fs.any (fun p => p.1 == key))
  | .arr xs => .ok (xs.any (fun v => match v with | JVal.str s => s == key | _ => false))
  | .str s => .ok (strHasSub key s)
  | v => .error (.typeError ("argument of type '" ++ pyTypeName v ++ "' is not iterable"))

/-- Python's `data[key]` for a string key.  Dict lookup (`KeyError` when
absent); any non-dict raises `TypeError`. -/
def pyGet (key : String) : JVal → Except PyErr JVal
  | .obj fs =>
    match fs.find? (fun p => p.1 == key) with
    | some p => .ok p.2
    | none => .error (.keyError key)
  | v => .error (.typeError ("'" ++ pyTypeName v ++ "' object is not subscriptable with a str"))

/-- Whitespace characters removed by Python's `str.strip()` (ASCII;
unicode whitespace abstracted away). -/
def pySpace (c : Char) : Bool :=
  c = ' ' ∨ c = '\t' ∨ c = '\n' ∨ c = '\r' ∨ c = '\x0b' ∨ c = '\x0c'

/-- Drop leading whitespace characters. -/
def dropSpaces : List Char → List Char
  | [] => []
  | c :: cs => if pySpace c then dropSpaces cs else c :: cs

/-- Python's `s.strip()`: the string without leading and trailing
whitespace. -/
def pyStrip (s : String) : String :=
  String.mk ((dropSpaces (dropSpaces s.data).reverse).reverse)

/-- `s.strip()` is nonempty: the element survives validation. -/
def nonblank (s : String) : Bool :=
  pyStrip s ≠ ""

/-- The loaded model (SentenceTransformer), opaque to the service.
Modelled from the spec: section 4.1's Model Handle contract —
`encode` on a batch maps `encodeOne` over the inputs in order. -/
structure ModelHandle where
  encodeOne : String → List ℚ

/-- One invocation of `model.encode`, as recorded in a handler trace. -/
inductive EncodeCall where
  | single (t : String)
  | batch (ts : List String)
  deriving DecidableEq

/-- What a handler produces: HTTP status, JSON body, and the trace of
`model.encode` invocations it performed. -/
structure HandlerOut where
  status : Nat
  body : JVal
  calls : List EncodeCall

/-- `{'error': msg}` response body. -/
def errBody (msg : String) : JVal :=
  JVal.obj [("error", JVal.str msg)]

/-- A vector of rationals as a JSON array (`embedding.tolist()`). -/
def jVec (v : List ℚ) : JVal :=
  JVal.arr (v.map JVal.num)

/-- Sum of squares of a vector: the square of its L2 norm. -/
def sumSq (v : List ℚ) : ℚ :=
  (v.map (fun x => x * x)).sum

/-- Field lookup in a JSON object body. -/
def getField (v : JVal) (key : String) : Option JVal :=
  match v with
  | .obj fs => (fs.find? (fun p => p.1 == key)).map (fun p => p.2)
  | _ => none

/-- `len(embeddings[0]) if len(embeddings) > 0 else 0` (src/app.py line 113). -/
def batchDims (embs : List (List ℚ)) : Nat :=
  match embs with
  | [] => 0
  | v :: _ => v.length

/-- `valid_texts = [text for text in texts if text.strip()]`
(src/app.py line 95): keeps the original (untrimmed) string when its
trimmed form is nonempty; raises `AttributeError` at the first
non-string element. -/
def filterValid : List JVal → Except PyErr (List String)
  | [] => .ok []
  | JVal.str s :: rest =>
    (filterValid rest).map (fun tail => if nonblank s then s :: tail else tail)
  | v :: _ => .error (.attributeError (stripAttrMsg v))

/-- Embedding of `health_check` (src/app.py lines 34-39). -/
def health_check (model : Option ModelHandle) : HandlerOut :=
  match model with
  | none =>
    ⟨500, JVal.obj [("status", JVal.str "error"), ("message", JVal.str "Model not loaded")], []⟩
  | some _ =>
    ⟨200, JVal.obj [("status", JVal.str "healthy"), ("model", JVal.str "nomic-embed-text-v1")], []⟩

/-- Embedding of `embed_text` (src/app.py lines 41-75).  The `try` body
is laid out branch by branch; every `.error` outcome is what the
`except Exception` clause turns into `jsonify({'error': str(e)}), 500`.
`text.strip()` succeeds exactly on strings, hence the match on
`JVal.str`; any other value raises `AttributeError`, caught as a 500. -/
def embed_text (model : Option ModelHandle) (data : JVal) : HandlerOut :=
  match model with
  | none => ⟨500, errBody "Model not loaded", []⟩
  | some m =>
    -- if not data or 'text' not in data  (short-circuit: truthiness first)
    if pyTruthy data = false then ⟨400, errBody "No text provided", []⟩
    else
      match pyContains "text" data with
      | .error e => ⟨500, errBody e.msg, []⟩
      | .ok false => ⟨400, errBody "No text provided", []⟩
      | .ok true =>
        match pyGet "text" data with
        | .error e => ⟨500, errBody e.msg, []⟩
        | .ok (JVal.str text) =>
          -- if not text.strip()
          if pyStrip text = "" then ⟨400, errBody "Empty text provided", []⟩
          else
            let embedding := m.encodeOne text
            ⟨200, JVal.obj
              [("embedding", jVec embedding),
               ("dimensions", JVal.num (embedding.length : ℚ)),
               ("model", JVal.str "nomic-embed-text-v1")],
             [EncodeCall.single text]⟩
        | .ok v => ⟨500, errBody (stripAttrMsg v), []⟩

/-- Embedding of `embed_batch` (src/app.py lines 77-120), in the same
style as `embed_text`; the `isinstance(texts, list)` check is the match
on `JVal.arr`. -/
def embed_batch (model : Option ModelHandle) (data : JVal) : HandlerOut :=
  match model with
  | none => ⟨500, errBody "Model not loaded", []⟩
  | some m =>
    if pyTruthy data = false then ⟨400, errBody "No texts provided", []⟩
    else
      match pyContains "texts" data with
      | .error e => ⟨500, errBody e.msg, []⟩
      | .ok false => ⟨400, errBody "No texts provided", []⟩
      | .ok true =>
        match pyGet "texts" data with
        | .error e => ⟨500, errBody e.msg, []⟩
        | .ok (JVal.arr items) =>
          match filterValid items with
          | .error e => ⟨500, errBody e.msg, []⟩
          | .ok valid =>
            if valid = [] then ⟨400, errBody "No valid texts provided", []⟩
            else
              let embeddings := valid.map m.encodeOne
              ⟨200, JVal.obj
                [("embeddings", JVal.arr (embeddings.map jVec)),
                 ("count", JVal.num (embeddings.length : ℚ)),
                 ("dimensions", JVal.num (batchDims embeddings : ℚ)),
                 ("model", JVal.str "nomic-embed-text-v1")],
               [EncodeCall.batch valid]⟩
        | .ok _ => ⟨400, errBody "Texts must be a list", []⟩

/-- Embedding of `root` (src/app.py lines 122-135). -/
def root (model : Option ModelHandle) : HandlerOut :=
  ⟨200, JVal.obj
    [("service", JVal.str "Nomic Embedding API"),
     ("model", JVal.str "nomic-embed-text-v1"),
     ("dimensions", JVal.num 768),
     ("status", JVal.str (if model.isSome then "ready" else "loading"))],
   []⟩

/-- The readiness state of the spec's Readiness Tracker. -/
inductive ModelState where
  | Loading
  | Ready
  | Failed
  deriving DecidableEq

/-- Process-wide state: the readiness phase together with the global
`model` variable (src/app.py line 14, `model = None` initially). -/
structure Proc where
  phase : ModelState
  model : Option ModelHandle

/-- Process start: `model = None`, phase `Loading`. -/
def procInit : Proc :=
  ⟨ModelState.Loading, none⟩

/-- Embedding of `load_model` (src/app.py lines 16-29).  The external
SentenceTransformer construction either yields a handle (`some h`,
`return True`) or raises (`none`: the exception is caught, `model` is
left unassigned, `return False`). -/
def load_model (p : Proc) (result : Option ModelHandle) : Proc :=
  match result with
  | some h => ⟨ModelState.Ready, some h⟩
  | none => ⟨ModelState.Failed, p.model⟩

/-- The process state right after the one startup `load_model()` call
(src/app.py line 32). -/
def afterLoad (result : Option ModelHandle) : Proc :=
  load_model procInit result

/-- An incoming HTTP request to one of the routes. -/
inductive Request where
  | health
  | embed (data : JVal)
  | embedBatch (data : JVal)
  | rootInfo

/-- Dispatch one request.  The source handlers read the global `model`
and never assign it (no `global model` declaration outside
`load_model`), so a handler produces output but no new process state. -/
def handle (p : Proc) : Request → HandlerOut
  | .health => health_check p.model
  | .embed d => embed_text p.model d
  | .embedBatch d => embed_batch p.model d
  | .rootInfo => root p.model

/-- Serve a sequence of requests, threading the process state. -/
def runReqs (p : Proc) : List Request → Proc × List HandlerOut
  | [] => (p, [])
  | r :: rs =>
    let out := handle p r
    let rest := runReqs p rs
    (rest.1, out :: rest.2)

/-- A concrete model handle used to instantiate theorems: every text
maps to the one-dimensional unit vector `[1]`. -/
def constHandle : ModelHandle :=
  ⟨fun _ => [1]⟩

/-- Request body `{'text': t}`. -/
def singleReq (t : String) : JVal :=
  JVal.obj [("text", JVal.str t)]

/-- Request body `{'texts': ts}` with string elements. -/
def batchReq (ts : List String) : JVal :=
  JVal.obj [("texts", JVal.arr (ts.map JVal.str))]

/-- Whether a JSON value is a string (the only values `.strip()` accepts). -/
def isStr : JVal → Bool
  | .str _ => true
  | _ => false

/-! ## Helper lemmas -/

/-- On a list of string elements the comprehension of line 95 never
raises and returns exactly the `nonblank` survivors in order. -/
theorem filterValid_map_str (ts : List String) :
    filterValid (ts.map JVal.str) = Except.ok (ts.filter nonblank) := by
  induction ts with
  | nil => rfl
  | cons t rest ih =>
    by_cases h : nonblank t <;>
      simp [filterValid, ih, Except.map, List.filter_cons, h]

/-- A list containing a non-string element makes the comprehension of
line 95 raise. -/
theorem filterValid_error_of_nonstr (ts : List JVal)
    (h : ∃ u ∈ ts, isStr u = false) :
    ∃ e, filterValid ts = Except.error e := by
  induction ts with
  | nil => simp at h
  | cons v rest ih =>
    cases v with
    | str s =>
      obtain ⟨u, hu, hns⟩ := h
      rcases List.mem_cons.mp hu with hu | hu
      · rw [hu] at hns; simp [isStr] at hns
      · obtain ⟨e, he⟩ := ih ⟨u, hu, hns⟩
        exact ⟨e, by simp [filterValid, he, Except.map]⟩
    | num q => exact ⟨_, rfl⟩
    | bool b => exact ⟨_, rfl⟩
    | null => exact ⟨_, rfl⟩
    | arr xs => exact ⟨_, rfl⟩
    | obj fs => exact ⟨_, rfl⟩

/-- Handlers never produce a new process state: serving any request
sequence leaves the process state exactly as it was. -/
theorem runReqs_fst (p : Proc) (reqs : List Request) :
    (runReqs p reqs).1 = p := by
  induction reqs with
  | nil => rfl
  | cons r rs ih => simpa [runReqs] using ih

/-- Evaluation of the single endpoint on a well-formed body with a
nonblank text. -/
theorem embed_text_single (m : ModelHandle) (t : String)
    (ht : nonblank t = true) :
    embed_text (some m) (singleReq t) =
      ⟨200, JVal.obj
        [("embedding", jVec (m.encodeOne t)),
         ("dimensions", JVal.num ((m.encodeOne t).length : ℚ)),
         ("model", JVal.str "nomic-embed-text-v1")],
       [EncodeCall.single t]⟩ := by
  replace ht : ¬pyStrip t = "" := by simpa [nonblank] using ht
  simp [embed_text, singleReq, pyTruthy, pyContains, pyGet, ht]

/-- Evaluation of the batch endpoint on a well-formed body with string
elements: a 400 when no element survives the filter, otherwise a 200
built from the survivors. -/
theorem embed_batch_eval (m : ModelHandle) (ts : List String) :
    embed_batch (some m) (batchReq ts) =
      (if ts.filter nonblank = [] then
        ⟨400, errBody "No valid texts provided", []⟩
      else
        ⟨200, JVal.obj
          [("embeddings", JVal.arr (((ts.filter nonblank).map m.encodeOne).map jVec)),
           ("count", JVal.num (((ts.filter nonblank).map m.encodeOne).length : ℚ)),
           ("dimensions", JVal.num (batchDims ((ts.filter nonblank).map m.encodeOne) : ℚ)),
           ("model", JVal.str "nomic-embed-text-v1")],
         [EncodeCall.batch (ts.filter nonblank)]⟩) := by
  simp [embed_batch, batchReq, pyTruthy, pyContains, pyGet, filterValid_map_str]

/-! ## Claims -/

/-- C1 counterexample: with the model not loaded (ModelState not Ready),
a POST /embed body lacking a `text` field gets status 500, not the
claimed 400: the readiness gate of line 45 runs before the validation of
line 50. -/
theorem c1_counterexample :
    (embed_text none (JVal.obj [("foo", JVal.str "x")])).status = 500 ∧
    ¬(embed_text none (JVal.obj [("foo", JVal.str "x")])).status = 400 :=
  ⟨rfl, by decide⟩

/-- C1 (amended): when the model is Ready, a POST /embed body lacking a
`text` field fails with the 400 MissingField outcome (`No text
provided`) and no model call; when the model is not Ready the readiness
gate runs first and the same request fails with 500 ModelUnavailable. -/
theorem c1_missing_text_field (m : ModelHandle) (fields : List (String × JVal))
    (hno : ∀ p ∈ fields, ¬p.1 = "text") :
    (embed_text (some m) (JVal.obj fields)).status = 400 ∧
    (embed_text (some m) (JVal.obj fields)).body = errBody "No text provided" ∧
    (embed_text (some m) (JVal.obj fields)).calls = [] ∧
    (embed_text none (JVal.obj fields)).status = 500 ∧
    (embed_text none (JVal.obj fields)).body = errBody "Model not loaded" := by
  have hany : fields.any (fun p => p.1 == "text") = false := by
    rw [List.any_eq_false]
    intro p hp
    simpa using hno p hp
  cases fields with
  | nil => exact ⟨rfl, rfl, rfl, rfl, rfl⟩
  | cons f rest =>
    refine ⟨?_, ?_, ?_, rfl, rfl⟩ <;>
      simp [embed_text, pyTruthy, pyContains, hany]

/-- C1 witness: the amended claim at the body `{'foo': 'x'}`. -/
theorem c1_missing_text_field_witness :
    (embed_text (some constHandle) (JVal.obj [("foo", JVal.str "x")])).status = 400 ∧
    (embed_text (some constHandle) (JVal.obj [("foo", JVal.str "x")])).body =
      errBody "No text provided" ∧
    (embed_text (some constHandle) (JVal.obj [("foo", JVal.str "x")])).calls = [] ∧
    (embed_text none (JVal.obj [("foo", JVal.str "x")])).status = 500 ∧
    (embed_text none (JVal.obj [("foo", JVal.str "x")])).body = errBody "Model not loaded" :=
  c1_missing_text_field constHandle [("foo", JVal.str "x")] (by decide)

/-- C4: in any reachable process state whose phase is not Ready, the
global model is still `None`, so both embedding endpoints fail with 500
`Model not loaded` on any body whatsoever and record zero calls to the
Model Handle. -/
theorem c4_not_ready_never_calls_model (p : Proc) (d : JVal)
    (hreach : p = procInit ∨ ∃ res, p = afterLoad res)
    (hnr : ¬p.phase = ModelState.Ready) :
    p.model = none ∧
    (embed_text p.model d).status = 500 ∧
    (embed_text p.model d).calls = [] ∧
    (embed_text p.model d).body = errBody "Model not loaded" ∧
    (embed_batch p.model d).status = 500 ∧
    (embed_batch p.model d).calls = [] ∧
    (embed_batch p.model d).body = errBody "Model not loaded" := by
  have hm : p.model = none := by
    rcases hreach with h | ⟨res, h⟩
    · rw [h]; rfl
    · cases res with
      | none => rw [h]; rfl
      | some hh => rw [h] at hnr; exact absurd rfl hnr
  rw [hm]
  exact ⟨rfl, rfl, rfl, rfl, rfl, rfl, rfl⟩

/-- C4 witness: the freshly started process (phase Loading) with a
`null` request body. -/
theorem c4_not_ready_never_calls_model_witness :
    procInit.model = none ∧
    (embed_text procInit.model JVal.null).status = 500 ∧
    (embed_text procInit.model JVal.null).calls = [] ∧
    (embed_text procInit.model JVal.null).body = errBody "Model not loaded" ∧
    (embed_batch procInit.model JVal.null).status = 500 ∧
    (embed_batch procInit.model JVal.null).calls = [] ∧
    (embed_batch procInit.model JVal.null).body = errBody "Model not loaded" :=
  c4_not_ready_never_calls_model procInit JVal.null (Or.inl rfl) (by decide)

/-- C5: after the startup load, /health answers 500 exactly when the
phase is not Ready (and 200 exactly when it is), with the
`{status: error, message}` body in the failure case and the
`{status: healthy, model}` body in the success case; the pre-load state
(phase Loading) also answers 500. -/
theorem c5_health_iff_ready (res : Option ModelHandle) :
    ((health_check (afterLoad res).model).status = 500 ↔
      ¬(afterLoad res).phase = ModelState.Ready) ∧
    ((health_check (afterLoad res).model).status = 200 ↔
      (afterLoad res).phase = ModelState.Ready) ∧
    (health_check (afterLoad res).model).body =
      (if res.isSome then
        JVal.obj [("status", JVal.str "healthy"), ("model", JVal.str "nomic-embed-text-v1")]
      else
        JVal.obj [("status", JVal.str "error"), ("message", JVal.str "Model not loaded")]) ∧
    (health_check procInit.model).status = 500 ∧
    ¬procInit.phase = ModelState.Ready := by
  cases res with
  | none => exact ⟨by decide, by decide, rfl, rfl, by decide⟩
  | some h =>
    refine ⟨?_, ?_, rfl, rfl, by decide⟩ <;>
      simp [health_check, afterLoad, load_model]

/-- C5 witness: a failed load yields a 500 health answer. -/
theorem c5_health_iff_ready_witness :
    (health_check (afterLoad none).model).status = 500 :=
  (c5_health_iff_ready none).1.mpr (by decide)

/-- C6: the phase starts as Loading, the single startup load moves it to
Ready on success and Failed on failure, and serving any sequence of
requests afterwards (or before the load) leaves the process state — and
so the phase — untouched. -/
theorem c6_model_state_write_once (res : Option ModelHandle) (reqs : List Request) :
    procInit.phase = ModelState.Loading ∧
    (afterLoad res).phase =
      (if res.isSome then ModelState.Ready else ModelState.Failed) ∧
    (runReqs (afterLoad res) reqs).1 = afterLoad res ∧
    (runReqs procInit reqs).1 = procInit := by
  refine ⟨rfl, ?_, runReqs_fst _ _, runReqs_fst _ _⟩
  cases res <;> rfl

/-- C2: on a batch of texts all nonblank, the batch endpoint answers 200
with one vector per text in order, and its i-th vector is exactly the
vector the single endpoint returns for the i-th text alone. -/
theorem c2_batch_single_equivalence (m : ModelHandle) (ts : List String)
    (i : Nat) (hi : i < ts.length) (hne : ∀ t ∈ ts, nonblank t = true) :
    (embed_batch (some m) (batchReq ts)).status = 200 ∧
    (embed_text (some m) (singleReq (ts.get ⟨i, hi⟩))).status = 200 ∧
    ∃ es : List JVal,
      getField (embed_batch (some m) (batchReq ts)).body "embeddings" =
        some (JVal.arr es) ∧
      es.length = ts.length ∧
      es.get? i =
        getField (embed_text (some m) (singleReq (ts.get ⟨i, hi⟩))).body "embedding" := by
  have hfil : ts.filter nonblank = ts := List.filter_eq_self.mpr hne
  have hts : ¬ts = [] := by
    intro h0
    rw [h0] at hi
    simp at hi
  have hne0 : ¬ts.filter nonblank = [] := by rw [hfil]; exact hts
  have hmem : ts.get ⟨i, hi⟩ ∈ ts := ts.get_mem i hi
  have hsingle := embed_text_single m (ts.get ⟨i, hi⟩) (hne _ hmem)
  refine ⟨?_, ?_, ts.map (fun t => jVec (m.encodeOne t)), ?_, ?_, ?_⟩
  · rw [embed_batch_eval, if_neg hne0]
  · rw [hsingle]
  · rw [embed_batch_eval, if_neg hne0]
    simp [getField, hfil, List.map_map]
  · simp
  · rw [hsingle]
    simp [getField, List.get?_eq_getElem?, List.getElem?_map,
      List.getElem?_eq_getElem hi]

/-- C2 witness: the two-element batch `['a', 'b']` at index 1. -/
theorem c2_batch_single_equivalence_witness :
    (embed_batch (some constHandle) (batchReq ["a", "b"])).status = 200 ∧
    (embed_text (some constHandle) (singleReq (["a", "b"].get ⟨1, by decide⟩))).status = 200 ∧
    ∃ es : List JVal,
      getField (embed_batch (some constHandle) (batchReq ["a", "b"])).body "embeddings" =
        some (JVal.arr es) ∧
      es.length = (["a", "b"] : List String).length ∧
      es.get? 1 =
        getField (embed_text (some constHandle)
          (singleReq (["a", "b"].get ⟨1, by decide⟩))).body "embedding" :=
  c2_batch_single_equivalence constHandle ["a", "b"] 1 (by decide) (by decide)

/-- C3: batch validation keeps exactly the nonblank-after-trim elements
in their original order: an all-blank (or empty) sequence means 400
`No valid texts provided` with no model call, otherwise a 200 whose
count is the number of survivors and whose vectors are the survivors'
embeddings in order; in particular `['', '  ', 'hello']` yields count 1. -/
theorem c3_batch_filtering (m : ModelHandle) (ts : List String) :
    (embed_batch (some m) (batchReq ts)).status =
      (if ts.filter nonblank = [] then 400 else 200) ∧
    (embed_batch (some m) (batchReq ts)).body =
      (if ts.filter nonblank = [] then errBody "No valid texts provided"
      else JVal.obj
        [("embeddings", JVal.arr ((ts.filter nonblank).map (fun t => jVec (m.encodeOne t)))),
         ("count", JVal.num ((ts.filter nonblank).length : ℚ)),
         ("dimensions", JVal.num (batchDims ((ts.filter nonblank).map m.encodeOne) : ℚ)),
         ("model", JVal.str "nomic-embed-text-v1")]) ∧
    (embed_batch (some m) (batchReq ts)).calls =
      (if ts.filter nonblank = [] then [] else [EncodeCall.batch (ts.filter nonblank)]) ∧
    getField (embed_batch (some m) (batchReq ["", "  ", "hello"])).body "count" =
      some (JVal.num 1) := by
  refine ⟨?_, ?_, ?_, ?_⟩
  · by_cases h : ts.filter nonblank = [] <;> rw [embed_batch_eval] <;> simp [h]
  · by_cases h : ts.filter nonblank = [] <;> rw [embed_batch_eval] <;>
      simp [h, List.map_map]
  · by_cases h : ts.filter nonblank = [] <;> rw [embed_batch_eval] <;> simp [h]
  · rw [embed_batch_eval]
    have hfe : List.filter nonblank ["", "  ", "hello"] = ["hello"] := by decide
    rw [hfe]
    simp [getField]

/-- C7: under the Model Handle contract (every encoded vector has the
model's fixed length `D` and unit L2 norm, i.e. sum of squares 1), every
vector either endpoint returns has length `D` and sum of squares 1, the
single response reports `dimensions = D`, and a one-element batch
produces exactly one vector. -/
theorem c7_vectors_normalized_fixed_dim (m : ModelHandle) (D : Nat)
    (hD : ∀ t, (m.encodeOne t).length = D)
    (hN : ∀ t, sumSq (m.encodeOne t) = 1)
    (t : String) (ht : nonblank t = true) (ts : List String) :
    getField (embed_text (some m) (singleReq t)).body "embedding" =
      some (jVec (m.encodeOne t)) ∧
    (m.encodeOne t).length = D ∧
    sumSq (m.encodeOne t) = 1 ∧
    getField (embed_text (some m) (singleReq t)).body "dimensions" =
      some (JVal.num (D : ℚ)) ∧
    ([t].map m.encodeOne).length = 1 ∧
    (∀ es, getField (embed_batch (some m) (batchReq ts)).body "embeddings" =
        some (JVal.arr es) →
      ∀ e ∈ es, ∃ v, e = jVec v ∧ v.length = D ∧ sumSq v = 1) := by
  have hsingle := embed_text_single m t ht
  refine ⟨?_, hD t, hN t, ?_, rfl, ?_⟩
  · rw [hsingle]; simp [getField]
  · rw [hsingle]; simp [getField, hD t]
  · intro es hes e he
    by_cases hf : ts.filter nonblank = []
    · rw [embed_batch_eval, if_pos hf] at hes
      simp [getField, errBody] at hes
    · rw [embed_batch_eval, if_neg hf] at hes
      simp [getField] at hes
      rw [← hes] at he
      obtain ⟨s, hs, rfl⟩ := List.mem_map.mp he
      exact ⟨m.encodeOne s, rfl, hD s, hN s⟩

/-- C7 witness: the constant handle, whose every vector is `[1]`. -/
theorem c7_vectors_normalized_fixed_dim_witness :
    getField (embed_text (some constHandle) (singleReq "hello")).body "embedding" =
      some (jVec (constHandle.encodeOne "hello")) ∧
    (constHandle.encodeOne "hello").length = 1 ∧
    sumSq (constHandle.encodeOne "hello") = 1 :=
  let h := c7_vectors_normalized_fixed_dim constHandle 1 (fun _ => rfl)
    (fun _ => by simp [constHandle, sumSq]) "hello" (by decide) ["hi"]
  ⟨h.1, h.2.1, h.2.2.1⟩

/-- C8: the strings handed to `model.encode` are the original request
strings, character for character: the single endpoint records a call on
`t` itself, the batch endpoint a call on the filtered survivors, each of
which is an element of the original sequence (trimming is only used for
the emptiness test). -/
theorem c8_texts_passed_unchanged (m : ModelHandle) (t : String)
    (ht : nonblank t = true) (ts : List String) :
    (embed_text (some m) (singleReq t)).calls = [EncodeCall.single t] ∧
    (embed_batch (some m) (batchReq ts)).calls =
      (if ts.filter nonblank = [] then [] else [EncodeCall.batch (ts.filter nonblank)]) ∧
    ∀ s ∈ ts.filter nonblank, s ∈ ts := by
  refine ⟨?_, ?_, fun s hs => List.mem_of_mem_filter hs⟩
  · rw [embed_text_single m t ht]
  · by_cases hf : ts.filter nonblank = [] <;> rw [embed_batch_eval] <;> simp [hf]

/-- C8 witness: text `'a'` and batch `['b', '']`. -/
theorem c8_texts_passed_unchanged_witness :
    (embed_text (some constHandle) (singleReq "a")).calls = [EncodeCall.single "a"] ∧
    (embed_batch (some constHandle) (batchReq ["b", ""])).calls =
      (if ["b", ""].filter nonblank = [] then []
      else [EncodeCall.batch (["b", ""].filter nonblank)]) ∧
    ∀ s ∈ ["b", ""].filter nonblank, s ∈ (["b", ""] : List String) :=
  c8_texts_passed_unchanged constHandle "a" (by decide) ["b", ""]

/-- C9: the reported batch dimensionality is the length of the first
vector, with the defensive fallback value 0 on an empty vector sequence;
when validation passed (some text survived) the vector sequence is
nonempty, so the fallback branch is not taken and the report is the true
first-vector length. -/
theorem c9_dimensions_first_vector (m : ModelHandle) (ts : List String)
    (hne : ¬ts.filter nonblank = []) :
    batchDims [] = 0 ∧
    ¬(ts.filter nonblank).map m.encodeOne = [] ∧
    getField (embed_batch (some m) (batchReq ts)).body "dimensions" =
      some (JVal.num (batchDims ((ts.filter nonblank).map m.encodeOne) : ℚ)) ∧
    ∀ v vs, (ts.filter nonblank).map m.encodeOne = v :: vs →
      batchDims ((ts.filter nonblank).map m.encodeOne) = v.length := by
  refine ⟨rfl, by simp [hne], ?_, ?_⟩
  · rw [embed_batch_eval, if_neg hne]
    simp [getField]
  · intro v vs hvv
    rw [hvv]
    rfl

/-- C9 witness: the one-element batch `['x']`. -/
theorem c9_dimensions_first_vector_witness :
    batchDims [] = 0 ∧
    ¬(["x"].filter nonblank).map constHandle.encodeOne = [] ∧
    getField (embed_batch (some constHandle) (batchReq ["x"])).body "dimensions" =
      some (JVal.num (batchDims ((["x"].filter nonblank).map constHandle.encodeOne) : ℚ)) ∧
    ∀ v vs, (["x"].filter nonblank).map constHandle.encodeOne = v :: vs →
      batchDims ((["x"].filter nonblank).map constHandle.encodeOne) = v.length :=
  c9_dimensions_first_vector constHandle ["x"] (by decide)

/-- C10: a non-string `text` value (or a non-string element among the
batch `texts`) is not caught by validation: the emptiness check raises,
the per-request exception handler answers 500 `{error: message}`, never
a 400 validation failure, and the model is not called. -/
theorem c10_nonstring_text_500 (m : ModelHandle) (v : JVal) (hv : isStr v = false)
    (ts : List JVal) (hts : ∃ u ∈ ts, isStr u = false) :
    (embed_text (some m) (JVal.obj [("text", v)])).status = 500 ∧
    ¬(embed_text (some m) (JVal.obj [("text", v)])).status = 400 ∧
    (embed_text (some m) (JVal.obj [("text", v)])).body = errBody (stripAttrMsg v) ∧
    (embed_text (some m) (JVal.obj [("text", v)])).calls = [] ∧
    (embed_batch (some m) (JVal.obj [("texts", JVal.arr ts)])).status = 500 ∧
    ¬(embed_batch (some m) (JVal.obj [("texts", JVal.arr ts)])).status = 400 ∧
    (∃ msg, (embed_batch (some m) (JVal.obj [("texts", JVal.arr ts)])).body = errBody msg) ∧
    (embed_batch (some m) (JVal.obj [("texts", JVal.arr ts)])).calls = [] := by
  obtain ⟨e, he⟩ := filterValid_error_of_nonstr ts hts
  have hbatch : embed_batch (some m) (JVal.obj [("texts", JVal.arr ts)]) =
      ⟨500, errBody e.msg, []⟩ := by
    simp [embed_batch, pyTruthy, pyContains, pyGet, he]
  have hsingle : embed_text (some m) (JVal.obj [("text", v)]) =
      ⟨500, errBody (stripAttrMsg v), []⟩ := by
    cases v with
    | str s => simp [isStr] at hv
    | num q => rfl
    | bool b => rfl
    | null => rfl
    | arr xs => rfl
    | obj fs => rfl
  rw [hsingle, hbatch]
  exact ⟨rfl, by simp, rfl, rfl, rfl, by simp, ⟨e.msg, rfl⟩, rfl⟩

/-- C10 witness: `{'text': 3}` and `{'texts': ['ok', null]}`. -/
theorem c10_nonstring_text_500_witness :
    (embed_text (some constHandle) (JVal.obj [("text", JVal.num 3)])).status = 500 ∧
    (embed_batch (some constHandle)
      (JVal.obj [("texts", JVal.arr [JVal.str "ok", JVal.null])])).status = 500 :=
  let h := c10_nonstring_text_500 constHandle (JVal.num 3) rfl
    [JVal.str "ok", JVal.null] ⟨JVal.null, by simp, rfl⟩
  ⟨h.1, h.2.2.2.2.1⟩
